import Mathlib

/-!
Formal model of `query.py`, a two-stage PubMed/PubTator pipeline:
`esearch_all_pmids` paginates a PubMed esearch query and returns the
deduplicated, numerically sorted PMID list; `pubtator_has_concept` batches
those PMIDs against the PubTator export endpoint and keeps the ids of
documents carrying at least one annotation; `session` configures the shared
retrying HTTP transport; `main` glues the stages together.  The two network
services are modelled as explicit oracles (`Upstream`, `PTService`): a run of
the Python code against fixed upstream responses computes exactly what the
Lean functions compute on the corresponding oracle.
-/

/-- Numeric value of a PMID string: the decimal reading of its characters.
This models the sort key `int(x)` of `query.py` on digit strings. -/
def pmidVal (s : String) : Nat :=
  s.data.foldl (fun n c => n * 10 + (c.toNat - 48)) 0

/-- Comparison of PMID strings by numeric value (`key=lambda x: int(x)`). -/
def pmidLE (a b : String) : Prop := pmidVal a ≤ pmidVal b

instance : DecidableRel pmidLE := fun a b => Nat.decLe (pmidVal a) (pmidVal b)

instance : IsTotal String pmidLE := ⟨fun a b => Nat.le_total (pmidVal a) (pmidVal b)⟩

instance : IsTrans String pmidLE := ⟨fun _ _ _ h h2 => Nat.le_trans h h2⟩

/-- The `retstart` offsets of the paginated requests: Python's
`range(0, count, chunk)`, faithful for `chunk > 0`. -/
def paginationStarts (count chunk : Nat) : List Nat :=
  List.range' 0 ((count + chunk - 1) / chunk) chunk

/-- The PubMed esearch upstream for one fixed query string: the total match
count reported by the count probe, and for each `retstart` offset the
`idlist` of the page response (`none` models a JSON body without an
`idlist` field; `query.py` reads it with `.get("idlist", [])`). -/
structure Upstream where
  count : Nat
  idlist : Nat → Option (List String)

/-- All PMIDs accumulated by the pagination loop of `esearch_all_pmids`, in
arrival order (`pmids.extend(...)` over the windows of
`range(0, count, chunk)`). -/
def collectedPMIDs (up : Upstream) (chunk : Nat) : List String :=
  ((paginationStarts up.count chunk).map (fun s => (up.idlist s).getD [])).flatten

/-- `esearch_all_pmids`: collect every page, then return
`sorted(set(pmids), key=lambda x: int(x))` — deduplicate and sort ascending
by numeric value. -/
def esearch_all_pmids (up : Upstream) (chunk : Nat) : List String :=
  List.insertionSort pmidLE (collectedPMIDs up chunk).dedup

/-- One GET request to the esearch endpoint: its `term`, `retmax` and
`retstart` parameters (`none` for the count probe, whose parameter dict has
no `retstart` key). -/
structure EsearchCall where
  term : String
  retmax : Nat
  retstart : Option Nat
deriving DecidableEq

/-- The paginated esearch requests issued for a reported `count`: one per
window of `range(0, count, chunk)`, each with `retmax = chunk` and
`retstart` the window start. -/
def esearchPaginationCalls (term : String) (count chunk : Nat) : List EsearchCall :=
  (paginationStarts count chunk).map (fun s => ⟨term, chunk, some s⟩)

/-- The pagination requests one collector run issues after its count probe
answered `up.count`. -/
def collectorPaginationCalls (up : Upstream) (term : String) (chunk : Nat) : List EsearchCall :=
  esearchPaginationCalls term up.count chunk

/-- One passage of a PubTator document; `annotations` is its list of
annotation records, each modelled by its serialized content (`query.py` only
ever takes the length of this list, via `.get("annotations", [])`). -/
structure Passage where
  annotations : List String
deriving DecidableEq

/-- One document of a PubTator biocjson response: its `id` field (`none`
models an absent key, read by `doc.get("id")`) and its passages
(`doc.get("passages", [])`). -/
structure Document where
  id : Option String
  passages : List Passage
deriving DecidableEq

/-- A PubTator export response; `query.py` reads `.get("documents", [])`, so
an absent `documents` field is the empty list. -/
structure PTResponse where
  documents : List Document
deriving DecidableEq

/-- The PubTator upstream: the response to one export request, as a function
of the comma-joined batch of PMIDs and of the concepts parameter. -/
structure PTService where
  respond : List String → List String → PTResponse

/-- Total annotation count of a document:
`sum(len(p.get("annotations", [])) for p in doc.get("passages", []))`. -/
def docAnnCount (d : Document) : Nat :=
  (d.passages.map (fun p => p.annotations.length)).sum

/-- The consecutive batches `pmids[i:i+page]` for
`i in range(0, len(pmids), page)`. -/
def batches (pmids : List String) (page : Nat) : List (List String) :=
  (paginationStarts pmids.length page).map (fun s => (pmids.drop s).take page)

/-- Inner loop body of `pubtator_has_concept`: add `doc.get("id")` to the
kept set when the document has at least one annotation. -/
def processDoc (keep : List (Option String)) (d : Document) : List (Option String) :=
  if 0 < docAnnCount d then keep.insert d.id else keep

/-- Process one export response: fold `processDoc` over its documents. -/
def processResponse (keep : List (Option String)) (resp : PTResponse) : List (Option String) :=
  resp.documents.foldl processDoc keep

/-- `pubtator_has_concept`: batch the PMIDs, query the service once per
batch, and keep the id of every returned document whose total annotation
count is positive.  The Python `set` named `keep` is modelled as a
duplicate-free list (`List.insert`). -/
def pubtator_has_concept (svc : PTService) (pmids concepts : List String) (page : Nat) :
    List (Option String) :=
  ((batches pmids page).map (fun b => svc.respond b concepts)).foldl processResponse []

/-- The annotation-export requests `pubtator_has_concept` issues: one per
batch, carrying the batch and the concepts parameter. -/
def annotationRequests (pmids concepts : List String) (page : Nat) :
    List (List String × List String) :=
  (batches pmids page).map (fun b => (b, concepts))

/-- Python's `str.split(sep)` for a one-character separator, over the
character list: keeps empty fields, and splitting the empty string yields
one empty field. -/
def splitChars (sep : Char) : List Char → List (List Char)
  | [] => [[]]
  | c :: cs =>
    let r := splitChars sep cs
    if c = sep then [] :: r
    else (c :: r.headD []) :: r.tail

/-- Python's `str.strip()` over the character list: drop whitespace from
both ends. -/
def trimChars (l : List Char) : List Char :=
  ((l.dropWhile Char.isWhitespace).reverse.dropWhile Char.isWhitespace).reverse

/-- Python's `str.strip()`. -/
def pyStrip (s : String) : String := String.mk (trimChars s.data)

/-- Python's `s.split(",")`. -/
def pySplitComma (s : String) : List String := (splitChars ',' s.data).map String.mk

/-- Normalization of the `--concepts` value in `main`:
`[c.strip() for c in args.concepts.split(",") if c.strip()]` — split on
commas, strip each entry, drop the entries that strip to the empty string. -/
def parseConcepts (s : String) : List String :=
  ((pySplitComma s).map pyStrip).filter (fun c => c != "")

/-- The filter stage runs iff `args.concepts.strip()` is truthy, i.e. the
stripped value is nonempty. -/
def filteringEnabled (s : String) : Bool :=
  pyStrip s != ""

/-- The annotation-export requests a whole run issues: none when filtering is
disabled, else one per batch (page size 1000) of the collected PMIDs
(collector chunk 10000, the defaults `main` uses). -/
def mainAnnotationRequests (up : Upstream) (conceptsArg : String) :
    List (List String × List String) :=
  if filteringEnabled conceptsArg then
    annotationRequests (esearch_all_pmids up 10000) (parseConcepts conceptsArg) 1000
  else []

/-- The request-level exceptions `main` catches: `requests.HTTPError` (a
non-success status surviving the retry policy) and the remaining
`requests.RequestException`s (timeout, connection error). -/
inductive ReqError where
  | httpStatus (msg : String)
  | timeout (msg : String)
  | connectionError (msg : String)
deriving DecidableEq

/-- The diagnostic `main` writes to the error stream: the
`except requests.HTTPError` clause comes first, so exactly the HTTP-status
failures get the "HTTP error" prefix and every other request failure gets
"Request failed". -/
def errorLine : ReqError → String
  | .httpStatus m => "HTTP error: " ++ m
  | .timeout m => "Request failed: " ++ m
  | .connectionError m => "Request failed: " ++ m

/-- Observable outcome of one run of `main`: the process exit code, the
PMIDs emitted to the output sink, and the error-stream diagnostic, if any. -/
structure RunOutcome where
  exitCode : Nat
  emitted : List String
  errLine : Option String
deriving DecidableEq

/-- The `try/except` of `main`: both pipeline stages run inside the `try`, so
on any request failure the classified diagnostic is written and the process
exits with status 1 before a single PMID is emitted; on success the PMIDs
are emitted and the process finishes with exit status 0. -/
def runMain (pipeline : Except ReqError (List String)) : RunOutcome :=
  match pipeline with
  | .error e => ⟨1, [], some (errorLine e)⟩
  | .ok pmids => ⟨0, pmids, none⟩

/-- The `urllib3 Retry` configuration mounted by `session()`. -/
structure RetryConfig where
  total : Nat
  backoff_factor : ℚ
  status_forcelist : List Nat
  allowed_methods : List String
deriving DecidableEq

/-- The session state `session()` builds: the mounted retry policy and the
`User-Agent` header it attaches to every request of the session. -/
structure SessionConfig where
  retries : RetryConfig
  userAgent : String
deriving DecidableEq

/-- `session()`: `Retry(total=5, backoff_factor=0.5,
status_forcelist=(429,500,502,503,504), allowed_methods={"GET"})` mounted for
`https://`, plus the header `User-Agent: PubTatorPMIDFetcher/2.0`. -/
def session : SessionConfig :=
  ⟨⟨5, 1/2, [429, 500, 502, 503, 504], ["GET"]⟩, "PubTatorPMIDFetcher/2.0"⟩

/-- Modelled from the spec: the retry loop itself is `urllib3` library code,
not part of this repository; §5 of the spec fixes its contract — "automatic
retry on a fixed set of transient HTTP status codes (429, 500, 502, 503,
504) with exponential backoff starting near 0.5s, up to 5 attempts,
restricted to idempotent read requests".  Given the remaining attempt
budget, the method, and the status the server would answer on the i-th
attempt, this returns the statuses actually observed, one per attempt: an
attempt is followed by another iff its status is in the forcelist, the
method is among the allowed methods, and budget remains. -/
def attemptLoop (cfg : RetryConfig) (method : String) (resp : Nat → Nat) :
    Nat → Nat → List Nat
  | 0, _ => []
  | fuel + 1, i =>
    if resp i ∈ cfg.status_forcelist ∧ method ∈ cfg.allowed_methods then
      resp i :: attemptLoop cfg method resp fuel (i + 1)
    else [resp i]

/-- The statuses observed over one logical request under a retry
configuration: the attempt loop started with the full budget. -/
def attemptStatuses (cfg : RetryConfig) (method : String) (resp : Nat → Nat) : List Nat :=
  attemptLoop cfg method resp cfg.total 0

/-- Modelled from the spec: the exponential backoff schedule — the delay
before retry `n` is the base factor doubled `n` times. -/
def backoffDelay (cfg : RetryConfig) (n : Nat) : ℚ :=
  cfg.backoff_factor * 2 ^ n

/-! ### Helper lemmas -/

theorem paginationStarts_zero (page : Nat) : paginationStarts 0 page = [] := by
  rcases page with _ | p
  · rfl
  · unfold paginationStarts
    rw [Nat.zero_add, Nat.div_eq_of_lt (by omega)]
    rfl

theorem mem_collectedPMIDs (up : Upstream) (chunk : Nat) (x : String) :
    x ∈ collectedPMIDs up chunk ↔
      ∃ s ∈ paginationStarts up.count chunk, x ∈ (up.idlist s).getD [] := by
  simp [collectedPMIDs, List.mem_flatten]

theorem mem_foldl_processDoc (docs : List Document) (keep : List (Option String))
    (x : Option String) :
    x ∈ docs.foldl processDoc keep ↔
      x ∈ keep ∨ ∃ d ∈ docs, 0 < docAnnCount d ∧ d.id = x := by
  induction docs generalizing keep with
  | nil => simp
  | cons d ds ih =>
    rw [List.foldl_cons, ih]
    unfold processDoc
    by_cases h : 0 < docAnnCount d
    · simp only [if_pos h, List.mem_insert_iff, List.mem_cons]
      constructor
      · rintro (⟨he | hk⟩ | ⟨d2, hd2, hc2, hi2⟩)
        · exact Or.inr ⟨d, Or.inl rfl, h, he.symm⟩
        · exact Or.inl hk
        · exact Or.inr ⟨d2, Or.inr hd2, hc2, hi2⟩
      · rintro (hk | ⟨d2, hd2 | hd2, hc2, hi2⟩)
        · exact Or.inl (Or.inr hk)
        · exact Or.inl (Or.inl (by rw [hd2] at hi2; exact hi2.symm))
        · exact Or.inr ⟨d2, hd2, hc2, hi2⟩
    · simp only [if_neg h, List.mem_cons]
      constructor
      · rintro (hk | ⟨d2, hd2, hc2, hi2⟩)
        · exact Or.inl hk
        · exact Or.inr ⟨d2, Or.inr hd2, hc2, hi2⟩
      · rintro (hk | ⟨d2, hd2 | hd2, hc2, hi2⟩)
        · exact Or.inl hk
        · exact absurd (hd2 ▸ hc2) h
        · exact Or.inr ⟨d2, hd2, hc2, hi2⟩

theorem mem_foldl_processResponse (resps : List PTResponse) (keep : List (Option String))
    (x : Option String) :
    x ∈ resps.foldl processResponse keep ↔
      x ∈ keep ∨ ∃ r ∈ resps, ∃ d ∈ r.documents, 0 < docAnnCount d ∧ d.id = x := by
  induction resps generalizing keep with
  | nil => simp
  | cons r rs ih =>
    rw [List.foldl_cons, ih]
    unfold processResponse
    rw [mem_foldl_processDoc]
    constructor
    · rintro (⟨hk | ⟨d, hd, hc, hi⟩⟩ | ⟨r2, hr2, d2, hd2, hc2, hi2⟩)
      · exact Or.inl hk
      · exact Or.inr ⟨r, List.mem_cons_self r rs, d, hd, hc, hi⟩
      · exact Or.inr ⟨r2, List.mem_cons_of_mem r hr2, d2, hd2, hc2, hi2⟩
    · rintro (hk | ⟨r2, hr2, d2, hd2, hc2, hi2⟩)
      · exact Or.inl (Or.inl hk)
      · rcases List.mem_cons.mp hr2 with he | hr2
        · exact Or.inl (Or.inr ⟨d2, he ▸ hd2, hc2, hi2⟩)
        · exact Or.inr ⟨r2, hr2, d2, hd2, hc2, hi2⟩

theorem mem_pubtator_has_concept (svc : PTService) (pmids concepts : List String)
    (page : Nat) (x : Option String) :
    x ∈ pubtator_has_concept svc pmids concepts page ↔
      ∃ b ∈ batches pmids page,
        ∃ d ∈ (svc.respond b concepts).documents, 0 < docAnnCount d ∧ d.id = x := by
  unfold pubtator_has_concept
  rw [mem_foldl_processResponse]
  constructor
  · rintro (hk | ⟨r, hr, d, hd, hc, hi⟩)
    · simp at hk
    · obtain ⟨b, hb, rfl⟩ := List.mem_map.mp hr
      exact ⟨b, hb, d, hd, hc, hi⟩
  · rintro ⟨b, hb, d, hd, hc, hi⟩
    exact Or.inr ⟨svc.respond b concepts, List.mem_map_of_mem _ hb, d, hd, hc, hi⟩

theorem batch_subset (pmids : List String) (page : Nat) (b : List String)
    (hb : b ∈ batches pmids page) : b ⊆ pmids := by
  obtain ⟨s, _, rfl⟩ := List.mem_map.mp hb
  exact (List.take_subset _ _).trans (List.drop_subset _ _)

theorem attemptLoop_length_le (cfg : RetryConfig) (method : String) (resp : Nat → Nat) :
    ∀ fuel i, (attemptLoop cfg method resp fuel i).length ≤ fuel := by
  intro fuel
  induction fuel with
  | zero => intro i; simp [attemptLoop]
  | succ n ih =>
    intro i
    unfold attemptLoop
    split
    · simpa using ih (i + 1)
    · simp

theorem attemptLoop_not_retried (cfg : RetryConfig) (method : String) (resp : Nat → Nat)
    (fuel i : Nat)
    (h : ¬(resp i ∈ cfg.status_forcelist ∧ method ∈ cfg.allowed_methods)) :
    attemptLoop cfg method resp (fuel + 1) i = [resp i] := by
  unfold attemptLoop
  rw [if_neg h]

/-! ### Claim theorems -/

/-- C1: for every input list of PMIDs and every list of concepts, the set
returned by `pubtator_has_concept` is a subset of the input PMID list.  The
hypothesis `hids` is the spec's data model of the annotation service (§3,
§6): each returned document is the per-PMID result of one of the requested
PMIDs of its batch. -/
theorem pubtator_has_concept_subset (svc : PTService) (pmids concepts : List String)
    (page : Nat)
    (hids : ∀ b ∈ batches pmids page, ∀ d ∈ (svc.respond b concepts).documents,
      ∃ p ∈ b, d.id = some p) :
    ∀ x ∈ pubtator_has_concept svc pmids concepts page, ∃ p ∈ pmids, x = some p := by
  intro x hx
  obtain ⟨b, hb, d, hd, _, hid⟩ := (mem_pubtator_has_concept svc pmids concepts page x).mp hx
  obtain ⟨p, hp, hdp⟩ := hids b hb d hd
  exact ⟨p, batch_subset pmids page b hb hp, by rw [← hid, hdp]⟩

/-- Witness for C1 at a concrete service, input and kept element. -/
theorem pubtator_has_concept_subset_witness :
    ∃ p ∈ ["1", "2"], (some "1" : Option String) = some p :=
  pubtator_has_concept_subset
    ⟨fun b _ => if b = ["1", "2"] then ⟨[⟨some "1", [⟨["m"]⟩]⟩, ⟨some "2", []⟩]⟩ else ⟨[]⟩⟩
    ["1", "2"] ["disease"] 1000 (by decide) (some "1") (by decide)

/-- C3: a document processed by the filter has its identifier in the result
iff the sum of the lengths of the annotation arrays over its passages is
positive.  The hypothesis `huniq` is the spec's data model (§3: an
annotation document is the per-PMID result): no second processed document
carries the same identifier. -/
theorem pubtator_mem_iff_annotated (svc : PTService) (pmids concepts : List String)
    (page : Nat) (b : List String) (hb : b ∈ batches pmids page) (d : Document)
    (hd : d ∈ (svc.respond b concepts).documents) (x : String) (hx : d.id = some x)
    (huniq : ∀ b2 ∈ batches pmids page, ∀ d2 ∈ (svc.respond b2 concepts).documents,
      d2.id = some x → d2 = d) :
    some x ∈ pubtator_has_concept svc pmids concepts page ↔ 0 < docAnnCount d := by
  rw [mem_pubtator_has_concept]
  constructor
  · rintro ⟨b2, hb2, d2, hd2, hc2, hi2⟩
    rw [huniq b2 hb2 d2 hd2 hi2] at hc2
    exact hc2
  · intro hc
    exact ⟨b, hb, d, hd, hc, hx⟩

/-- Witness for C3: the annotated document's id is kept, and the iff holds at
a concrete service with two documents. -/
theorem pubtator_mem_iff_annotated_witness :
    some "1" ∈ pubtator_has_concept
        ⟨fun b _ => if b = ["1", "2"] then ⟨[⟨some "1", [⟨["m"]⟩]⟩, ⟨some "2", []⟩]⟩ else ⟨[]⟩⟩
        ["1", "2"] ["disease"] 1000 ↔
      0 < docAnnCount ⟨some "1", [⟨["m"]⟩]⟩ :=
  pubtator_mem_iff_annotated _ ["1", "2"] ["disease"] 1000 ["1", "2"] (by decide)
    ⟨some "1", [⟨["m"]⟩]⟩ (by decide) "1" rfl (by decide)

/-- C10: on the empty PMID list the filter issues no annotation-export
request and returns the empty set, whatever the concepts. -/
theorem pubtator_empty_input (svc : PTService) (concepts : List String) (page : Nat) :
    pubtator_has_concept svc [] concepts page = [] ∧
      annotationRequests [] concepts page = [] := by
  unfold pubtator_has_concept annotationRequests batches
  rw [List.length_nil, paginationStarts_zero]
  exact ⟨rfl, rfl⟩

/-- C4: when the count probe reports 25000 and the chunk is 10000, the
collector issues exactly three pagination requests, with `retstart` 0,
10000 and 20000 in that order, each with `retmax` equal to the chunk. -/
theorem collector_pagination_calls_25000 (up : Upstream) (q : String)
    (h : up.count = 25000) :
    collectorPaginationCalls up q 10000 =
      [⟨q, 10000, some 0⟩, ⟨q, 10000, some 10000⟩, ⟨q, 10000, some 20000⟩] := by
  unfold collectorPaginationCalls esearchPaginationCalls
  rw [h]
  rfl

/-- Witness for C4 at a concrete upstream. -/
theorem collector_pagination_calls_25000_witness :
    collectorPaginationCalls ⟨25000, fun _ => none⟩ "alkaptonuria" 10000 =
      [⟨"alkaptonuria", 10000, some 0⟩, ⟨"alkaptonuria", 10000, some 10000⟩,
        ⟨"alkaptonuria", 10000, some 20000⟩] :=
  collector_pagination_calls_25000 _ _ rfl

/-- C5: when the count probe reports 0, the collector returns the empty
sequence and issues no pagination request beyond the count probe
(`chunk > 0` keeps the model inside the domain where Python's `range` is
defined). -/
theorem collector_count_zero (up : Upstream) (q : String) (chunk : Nat)
    (h : up.count = 0) (_hchunk : 0 < chunk) :
    esearch_all_pmids up chunk = [] ∧ collectorPaginationCalls up q chunk = [] := by
  unfold esearch_all_pmids collectedPMIDs collectorPaginationCalls esearchPaginationCalls
  rw [h, paginationStarts_zero]
  exact ⟨rfl, rfl⟩

/-- Witness for C5 at a concrete upstream. -/
theorem collector_count_zero_witness :
    esearch_all_pmids ⟨0, fun _ => none⟩ 10000 = [] ∧
      collectorPaginationCalls ⟨0, fun _ => none⟩ "alkaptonuria" 10000 = [] :=
  collector_count_zero _ _ 10000 rfl (by decide)

/-- C6: the `--concepts` value is normalized by splitting on commas,
stripping each entry and dropping empty entries, so
`" disease , chemical ,"` yields `["disease", "chemical"]`; the empty value
(also the default when the flag is absent) disables the filter stage, so no
annotation-export request is issued. -/
theorem concepts_normalization_disables_empty :
    parseConcepts " disease , chemical ," = ["disease", "chemical"] ∧
      filteringEnabled "" = false ∧
      ∀ up : Upstream, mainAnnotationRequests up "" = [] := by
  refine ⟨by decide, by decide, fun up => ?_⟩
  have h : filteringEnabled "" = false := by decide
  simp [mainAnnotationRequests, h]

/-- C7: a request failure classified as an HTTP-status error is reported
with the "HTTP error" prefix, every other request-level failure (timeout,
connection error) with the "Request failed" prefix; in both cases the
process exits with status 1 and emits no PMIDs; on success the exit status
is 0 and the collected PMIDs are emitted. -/
theorem runMain_error_classification :
    (∀ m, runMain (Except.error (ReqError.httpStatus m)) =
        ⟨1, [], some ("HTTP error: " ++ m)⟩) ∧
      (∀ m, runMain (Except.error (ReqError.timeout m)) =
        ⟨1, [], some ("Request failed: " ++ m)⟩) ∧
      (∀ m, runMain (Except.error (ReqError.connectionError m)) =
        ⟨1, [], some ("Request failed: " ++ m)⟩) ∧
      ∀ pmids, runMain (Except.ok pmids) = ⟨0, pmids, none⟩ :=
  ⟨fun _ => rfl, fun _ => rfl, fun _ => rfl, fun _ => rfl⟩

/-- C9: the collector is deterministic in its upstream: two runs with the
same chunk against upstreams reporting the same count and the same page
responses return identical sequences. -/
theorem esearch_deterministic (u1 u2 : Upstream) (chunk : Nat)
    (hcount : u1.count = u2.count) (hpages : ∀ s, u1.idlist s = u2.idlist s) :
    esearch_all_pmids u1 chunk = esearch_all_pmids u2 chunk := by
  have hf : (fun s => (u1.idlist s).getD []) = (fun s => (u2.idlist s).getD []) :=
    funext fun s => by rw [hpages s]
  unfold esearch_all_pmids collectedPMIDs
  rw [hcount, hf]

/-- Witness for C9: two syntactically different upstreams with identical
responses. -/
theorem esearch_deterministic_witness :
    esearch_all_pmids ⟨1, fun s => if s < 1 then some ["7"] else none⟩ 10000 =
      esearch_all_pmids ⟨1, fun s => if s = 0 then some ["7"] else none⟩ 10000 :=
  esearch_deterministic _ _ 10000 rfl (fun s => by cases s <;> rfl)

/-- C2: for every upstream result set and chunk size, the sequence the
collector returns has no duplicate PMIDs and is strictly ascending by
numeric value.  The hypothesis `hcanon` is the spec's PMID data model (§3,
"a numeric identifier represented as text"): every PMID carried by an
answered page is the canonical decimal numeral of its numeric value. -/
theorem esearch_all_pmids_nodup_strict_sorted (up : Upstream) (chunk : Nat)
    (hcanon : ∀ s ∈ paginationStarts up.count chunk,
      ∀ p ∈ (up.idlist s).getD [], Nat.repr (pmidVal p) = p) :
    (esearch_all_pmids up chunk).Nodup ∧
      (esearch_all_pmids up chunk).Pairwise (fun a b => pmidVal a < pmidVal b) := by
  have hperm : List.Perm (esearch_all_pmids up chunk) (collectedPMIDs up chunk).dedup :=
    List.perm_insertionSort pmidLE ((collectedPMIDs up chunk).dedup)
  have hnodup : (esearch_all_pmids up chunk).Nodup :=
    hperm.nodup_iff.mpr (List.nodup_dedup (collectedPMIDs up chunk))
  have hsorted : (esearch_all_pmids up chunk).Pairwise pmidLE :=
    List.sorted_insertionSort pmidLE ((collectedPMIDs up chunk).dedup)
  have hmemc : ∀ x ∈ esearch_all_pmids up chunk, Nat.repr (pmidVal x) = x := by
    intro x hx
    have hx2 : x ∈ collectedPMIDs up chunk := List.mem_dedup.mp (hperm.mem_iff.mp hx)
    obtain ⟨s, hs, hxs⟩ := (mem_collectedPMIDs up chunk x).mp hx2
    exact hcanon s hs x hxs
  refine ⟨hnodup, ?_⟩
  have hne : (esearch_all_pmids up chunk).Pairwise (fun a b => a ≠ b) := hnodup
  refine (hsorted.and hne).imp_of_mem ?_
  intro a b ha hb hab
  refine lt_of_le_of_ne hab.1 fun he => hab.2 ?_
  rw [← hmemc a ha, ← hmemc b hb, he]

/-- Witness for C2: a page answering `["10", "9", "10"]` is deduplicated and
sorted numerically (not lexically). -/
theorem esearch_all_pmids_nodup_strict_sorted_witness :
    (esearch_all_pmids ⟨3, fun s => if s = 0 then some ["10", "9", "10"] else none⟩
        10000).Nodup ∧
      (esearch_all_pmids ⟨3, fun s => if s = 0 then some ["10", "9", "10"] else none⟩
        10000).Pairwise (fun a b => pmidVal a < pmidVal b) :=
  esearch_all_pmids_nodup_strict_sorted _ 10000 (by decide)

/-- C8: the shared transport retries exactly the statuses 429, 500, 502,
503, 504, its exponential backoff has base factor 0.5 seconds, a logical
request makes at most 5 attempts, retries are restricted to GET, a
client-identification header is attached to the session, and a
non-retryable status is answered without any retry. -/
theorem session_retry_policy :
    session.retries.status_forcelist = [429, 500, 502, 503, 504] ∧
      session.retries.backoff_factor = 1 / 2 ∧
      session.retries.allowed_methods = ["GET"] ∧
      session.userAgent = "PubTatorPMIDFetcher/2.0" ∧
      backoffDelay session.retries 0 = 1 / 2 ∧
      (∀ n, backoffDelay session.retries (n + 1) = 2 * backoffDelay session.retries n) ∧
      (∀ method resp, (attemptStatuses session.retries method resp).length ≤ 5) ∧
      (∀ resp, resp 0 ∉ session.retries.status_forcelist →
        attemptStatuses session.retries "GET" resp = [resp 0]) ∧
      (∀ method resp, method ≠ "GET" →
        attemptStatuses session.retries method resp = [resp 0]) := by
  refine ⟨rfl, rfl, rfl, rfl, ?_, ?_, ?_, ?_, ?_⟩
  · norm_num [backoffDelay, session]
  · intro n
    unfold backoffDelay
    rw [pow_succ]
    ring
  · intro method resp
    exact attemptLoop_length_le session.retries method resp session.retries.total 0
  · intro resp hmem
    exact attemptLoop_not_retried session.retries "GET" resp 4 0 fun hc => hmem hc.1
  · intro method resp hne
    exact attemptLoop_not_retried session.retries method resp 4 0
      fun hc => hne (List.mem_singleton.mp hc.2)

/-- Witness for C8: a 404 on a GET is not retried, and a retryable 503 on a
non-GET is not retried either. -/
theorem session_retry_policy_witness :
    attemptStatuses session.retries "GET" (fun _ => 404) = [404] ∧
      attemptStatuses session.retries "POST" (fun _ => 503) = [503] :=
  ⟨session_retry_policy.2.2.2.2.2.2.2.1 (fun _ => 404) (by decide),
    session_retry_policy.2.2.2.2.2.2.2.2 "POST" (fun _ => 503) (by decide)⟩
